import Mathlib

/-!
Verification of the CXA81 serial-to-HTTP bridge (cax81.go and its variants).

The Go source is shallowly embedded: strings become Lean `String` values
(buffers become `List Char`), the regex-based decoder `validReply` becomes an
explicit scanner with the same leftmost, non-overlapping match semantics, and
the mutex-guarded `Amplifier` state becomes explicit state passing over the
`AmplifierState` structure.  Transport writes are modelled by emitting the
`Command` values passed to `SendCommand`; transport reads are modelled by
feeding an explicit byte buffer to the decoding functions.
-/

namespace CXA81

/-- Command represents a serial command to the CXA amplifier
(struct `Command` in cax81.go). -/
structure Command where
  Group : String
  Number : String
  Data : String := ""
deriving DecidableEq, Repr

/-- Reply represents a reply from the CXA amplifier
(struct `Reply` in cax81.go). -/
structure Reply where
  Group : String
  Number : String
  Data : String := ""
deriving DecidableEq, Repr

-- Amplifier command constants (cax81.go, vars `GetPowerState` .. `SetMuteOn`).
def GetPowerState : Command := { Group := "01", Number := "01" }

def SetPowerStandby : Command := { Group := "01", Number := "02", Data := "0" }

def SetPowerOn : Command := { Group := "01", Number := "02", Data := "1" }

def GetMuteState : Command := { Group := "01", Number := "03" }

def SetMuteOff : Command := { Group := "01", Number := "04", Data := "0" }

def SetMuteOn : Command := { Group := "01", Number := "04", Data := "1" }

-- Source command constants (cax81.go, vars `GetSource` .. `SetSourceA1Balanced`).
def GetSource : Command := { Group := "03", Number := "01" }

def GetNextSource : Command := { Group := "03", Number := "02" }

def GetPreviousSource : Command := { Group := "03", Number := "03" }

def SetSourceA1 : Command := { Group := "03", Number := "04", Data := "00" }

def SetSourceA2 : Command := { Group := "03", Number := "04", Data := "01" }

def SetSourceA3 : Command := { Group := "03", Number := "04", Data := "02" }

def SetSourceA4 : Command := { Group := "03", Number := "04", Data := "03" }

def SetSourceD1 : Command := { Group := "03", Number := "04", Data := "04" }

def SetSourceD2 : Command := { Group := "03", Number := "04", Data := "05" }

def SetSourceD3 : Command := { Group := "03", Number := "04", Data := "06" }

def SetSourceMP3 : Command := { Group := "03", Number := "04", Data := "10" }

def SetSourceBluetooth : Command := { Group := "03", Number := "04", Data := "14" }

def SetSourceUSBAudio : Command := { Group := "03", Number := "04", Data := "16" }

def SetSourceA1Balanced : Command := { Group := "03", Number := "04", Data := "20" }

/-- The `sources` map of cax81.go, as a total function: a Go map lookup with a
missing key yields the zero value "", which the `_` branch reproduces. -/
def sources : String → String
  | "00" => "A1"
  | "01" => "A2"
  | "02" => "A3"
  | "03" => "A4"
  | "04" => "D1"
  | "05" => "D2"
  | "06" => "D3"
  | "10" => "MP3"
  | "14" => "Bluetooth"
  | "16" => "USB"
  | "20" => "A1 Balanced"
  | _ => ""

/-- Embedding of `(*Amplifier).SendCommand`'s frame formatting (cax81.go):
the string written to the serial port for a command, as a character list.
The Go code builds the string "#" + Group + "," + Number and then appends
either "," + Data + CR (when Data is non-empty) or just CR. -/
def sendCommandFrame (cmd : Command) : List Char :=
  let s := '#' :: cmd.Group.data ++ ',' :: cmd.Number.data
  if cmd.Data != "" then s ++ ',' :: cmd.Data.data ++ ['\r'] else s ++ ['\r']

/-!
The decoder.  cax81.go matches the regex

    #(dd),(dd)(?:,([^CR]*))?CR          (dd: two ASCII digits, CR: carriage return)

against a read buffer with `FindAllStringSubmatch`, i.e. it takes all
non-overlapping leftmost matches, left to right.  The regex is deterministic:
at a given start position it matches iff the buffer continues with
hash, two digits, comma, two digits, and then either an immediate CR
(no data group) or a comma followed by the (unique) run of non-CR characters
up to a CR.  `matchFrameAt` is that per-position matcher and `decode` is the
left-to-right scan.
-/

/-- Attempt to match one `#GG,NN[,DATA]\r` frame at the head of the buffer,
returning the decoded Reply and the rest of the buffer after the match.
Mirrors the regex `validReply` of cax81.go at a fixed start position
(an unmatched optional data group leaves `Data` as the empty string,
exactly as the Go code reads `m[3]` of an unmatched group). -/
def matchFrameAt : List Char → Option (Reply × List Char)
  | '#' :: g1 :: g2 :: ',' :: n1 :: n2 :: rest =>
    if g1.isDigit && g2.isDigit && n1.isDigit && n2.isDigit then
      match rest with
      | '\r' :: rs => some ({ Group := ⟨[g1, g2]⟩, Number := ⟨[n1, n2]⟩, Data := "" }, rs)
      | ',' :: rs =>
        match rs.dropWhile (fun c => c != '\r') with
        | '\r' :: rs2 =>
          some ({ Group := ⟨[g1, g2]⟩, Number := ⟨[n1, n2]⟩,
                  Data := ⟨rs.takeWhile (fun c => c != '\r')⟩ }, rs2)
        | _ => none
      | _ => none
    else none
  | _ => none

theorem length_dropWhile_le {α : Type} (p : α → Bool) (l : List α) :
    (l.dropWhile p).length ≤ l.length := by
  induction l with
  | nil => simp [List.dropWhile]
  | cons a l ih =>
    by_cases h : p a
    · simp [List.dropWhile, h]
      omega
    · simp [List.dropWhile, h]

theorem matchFrameAt_some_length {l rest : List Char} {r : Reply}
    (h : matchFrameAt l = some (r, rest)) : rest.length < l.length := by
  rw [matchFrameAt.eq_def] at h
  split at h
  next g1 g2 n1 n2 tl =>
    split at h
    · split at h
      next rs =>
        simp only [Option.some.injEq, Prod.mk.injEq] at h
        obtain ⟨-, rfl⟩ := h
        simp only [List.length_cons]
        omega
      next rs =>
        split at h
        next rs2 heq =>
          simp only [Option.some.injEq, Prod.mk.injEq] at h
          obtain ⟨-, rfl⟩ := h
          have h1 : ('\r' :: rs2).length ≤ rs.length := by
            rw [← heq]
            exact length_dropWhile_le _ rs
          simp only [List.length_cons] at h1 ⊢
          omega
        next => exact absurd h (by simp)
      next => exact absurd h (by simp)
    · exact absurd h (by simp)
  next => exact absurd h (by simp)

/-- Embedding of the decoding step of `readUpdate` (cax81.go):
`validReply.FindAllStringSubmatch(response, -1)` — all non-overlapping
leftmost matches of the frame regex, in left-to-right buffer order, one
Reply per match.  The scan tries each start position from the left; on a
match it emits the Reply and continues right after the matched frame. -/
def decode (l : List Char) : List Reply :=
  match l with
  | [] => []
  | c :: cs =>
    match hm : matchFrameAt (c :: cs) with
    | some (r, rest) => r :: decode rest
    | none => decode cs
termination_by l.length
decreasing_by
  · exact matchFrameAt_some_length hm
  · simp only [List.length_cons]
    omega

theorem decode_nil : decode [] = [] := by
  rw [decode]

theorem decode_cons_some {c : Char} {cs rest : List Char} {r : Reply}
    (h : matchFrameAt (c :: cs) = some (r, rest)) :
    decode (c :: cs) = r :: decode rest := by
  rw [decode]
  split
  next r2 rest2 hm =>
    rw [h] at hm
    simp only [Option.some.injEq, Prod.mk.injEq] at hm
    rw [hm.1, hm.2]
  next hm => rw [h] at hm; exact absurd hm (by simp)

theorem decode_cons_none {c : Char} {cs : List Char}
    (h : matchFrameAt (c :: cs) = none) :
    decode (c :: cs) = decode cs := by
  rw [decode]
  split
  next r2 rest2 hm => rw [h] at hm; exact absurd hm (by simp)
  next => rfl

/-- AmplifierState represents the internal state of the amplifier
(struct `AmplifierState` in cax81.go; zero value: all fields false/empty). -/
structure AmplifierState where
  Power : Bool
  Mute : Bool
  Source : String
deriving DecidableEq, Repr

/-- The all-zero state an `Amplifier` starts with (Go zero value of the
embedded `AmplifierState`). -/
def initialState : AmplifierState := { Power := false, Mute := false, Source := "" }

/-- Embedding of `(*Amplifier).UpdateState` (cax81.go): the new state after
applying one decoded Reply, mirroring the switch on Group/Number.  A power
reply sets Power from the data and, still inside the same locked update,
resets Mute and Source when the new Power is false. -/
def UpdateState (s : AmplifierState) (r : Reply) : AmplifierState :=
  match r.Group, r.Number with
  | "02", "01" =>
    let s1 := { s with Power := r.Data == "1" }
    if !s1.Power then { s1 with Mute := false, Source := "" } else s1
  | "02", "03" => { s with Mute := r.Data == "1" }
  | "04", "01" => { s with Source := sources r.Data }
  | _, _ => s

/-- Embedding of `(*Reply).String` (cax81.go).  The source initialises a
local variable data to r.Data and overwrites it with sources[data] in the
Group=04/Number=01 branch, but that local is never read afterwards: the
returned string is built from desc and r.Data.  The unused binding is kept
here (underscored) to mirror that dead assignment. -/
def replyString (r : Reply) : String :=
  let desc :=
    match r.Group, r.Number with
    | "00", "01" => "Command group unknown"
    | "00", "02" => "Command number unknown"
    | "00", "03" => "Command data error"
    | "00", "04" => "Command not available"
    | "02", "01" => "Current power state"
    | "02", "03" => "Current mute state"
    | "04", "01" => "Current source"
    | "14", "01" => "Protocol Version"
    | "14", "02" => "Get Firmware Version"
    | _, _ => "Unknown reply: " ++ r.Group ++ "," ++ r.Number ++ "," ++ r.Data
  let _data := if r.Group == "04" && r.Number == "01" then sources r.Data else r.Data
  if r.Data != "" then desc ++ ": " ++ r.Data else desc

/-!
HTTP dispatch handlers of cax81.go.  Each Go handler mutates the locked
Amplifier state and either returns an error without sending anything, or
returns the result of SendCommand(c).  We model a handler as a function from
the current state and the request string to the new state together with an
`Except`: an error message, or the optional Command handed to SendCommand
(none for the empty-string no-op).  The transport write itself is a
collaborator concern; a sent command stands for exactly one frame written.
-/

/-- Embedding of `(*Amplifier).handlePower` (cax81.go). -/
def handlePower (s : AmplifierState) (str : String) :
    AmplifierState × Except String (Option Command) :=
  match str with
  | "on" => ({ s with Power := true }, .ok (some SetPowerOn))
  | "off" => ({ s with Power := false }, .ok (some SetPowerStandby))
  | "toggle" =>
    if s.Power then ({ s with Power := false }, .ok (some SetPowerStandby))
    else ({ s with Power := true }, .ok (some SetPowerOn))
  | "" => (s, .ok none)
  | _ => (s, .error ("Unexpected power state " ++ str ++ ", expected: on/off/toggle"))

/-- Embedding of `(*Amplifier).handleMute` (cax81.go).  The handler returns
nil immediately when the stored Power is false, before looking at the
argument. -/
def handleMute (s : AmplifierState) (str : String) :
    AmplifierState × Except String (Option Command) :=
  if !s.Power then (s, .ok none)
  else
    match str with
    | "on" => ({ s with Mute := true }, .ok (some SetMuteOn))
    | "muted" => ({ s with Mute := true }, .ok (some SetMuteOn))
    | "off" => ({ s with Mute := false }, .ok (some SetMuteOff))
    | "unmuted" => ({ s with Mute := false }, .ok (some SetMuteOff))
    | "" => (s, .ok none)
    | _ => (s, .error ("Unexpected mute state " ++ str ++ ", expected: on/off/muted/unmuted"))

/-- Embedding of `(*Amplifier).handleSource` (cax81.go).  Like handleMute it
returns nil immediately when the stored Power is false. -/
def handleSource (s : AmplifierState) (str : String) :
    AmplifierState × Except String (Option Command) :=
  if !s.Power then (s, .ok none)
  else
    match str with
    | "A1" => ({ s with Source := "A1" }, .ok (some SetSourceA1))
    | "A2" => ({ s with Source := "A2" }, .ok (some SetSourceA2))
    | "A3" => ({ s with Source := "A3" }, .ok (some SetSourceA3))
    | "A4" => ({ s with Source := "A4" }, .ok (some SetSourceA4))
    | "D1" => ({ s with Source := "D1" }, .ok (some SetSourceD1))
    | "D2" => ({ s with Source := "D2" }, .ok (some SetSourceD2))
    | "D3" => ({ s with Source := "D3" }, .ok (some SetSourceD3))
    | "MP3" => ({ s with Source := "MP3" }, .ok (some SetSourceMP3))
    | "Bluetooth" => ({ s with Source := "Bluetooth" }, .ok (some SetSourceBluetooth))
    | "USB" => ({ s with Source := "USB" }, .ok (some SetSourceUSBAudio))
    | "A1 Balanced" => ({ s with Source := "A1 Balanced" }, .ok (some SetSourceA1Balanced))
    | "" => (s, .ok none)
    | _ => (s, .error ("Unknown source: " ++ str))

/-- The decoded JSON body of a POST /status request (the anonymous struct in
`ServeHTTP`, cax81.go); absent JSON fields decode to "". -/
structure StatusRequest where
  Power : String
  Mute : String
  Source : String
deriving DecidableEq, Repr

/-- Embedding of the POST branch of `(*Amplifier).ServeHTTP` (cax81.go) after
a successful JSON decode: the three handlers run in order on the locked
state; each handler error is written as an HTTP 500 error message; the
response body is the JSON encoding of the state as it stands after all
three handlers (the lock is held throughout).  Returns (final state =
response-body state, 500 error messages in order, commands sent in order). -/
def servePost (s : AmplifierState) (req : StatusRequest) :
    AmplifierState × List String × List Command :=
  let p := handlePower s req.Power
  let m := handleMute p.1 req.Mute
  let src := handleSource m.1 req.Source
  let results := [p.2, m.2, src.2]
  let errs := results.foldr
    (fun r acc => match r with | .error msg => msg :: acc | .ok _ => acc) []
  let sent := results.foldr
    (fun r acc => match r with | .ok (some c) => c :: acc | _ => acc) []
  (src.1, errs, sent)

/-- Embedding of `(*Amplifier).readUpdate` (cax81.go) for one read that
yielded the buffer `buf`: decode all frames; when the regex finds no match
the function returns the error built from the buffer (Go formats the buffer
with %q, which additionally quotes and escapes it; the model carries the raw
buffer text) and the state is untouched; otherwise every decoded reply is
applied to the state in order via UpdateState. -/
def readUpdate (s : AmplifierState) (buf : List Char) :
    Except String AmplifierState :=
  match decode buf with
  | [] => .error ("invalid reply format: " ++ ⟨buf⟩)
  | rs => .ok (rs.foldl UpdateState s)

/-- One iteration of `(*Amplifier).Listen` (cax81.go) on buffer `buf`: an
error from readUpdate is logged and the loop continues with the state
unchanged; otherwise the loop continues with the updated state. -/
def listenStep (s : AmplifierState) (buf : List Char) : AmplifierState :=
  match readUpdate s buf with
  | .error _ => s
  | .ok s2 => s2

/-- A buffer position-by-position search for a frame match, bounded by the
buffer length (positions beyond it see the empty buffer, which never
matches): true iff some suffix of `buf` starts with a valid frame. -/
def hasFrameMatch (buf : List Char) : Bool :=
  (List.range (buf.length + 1)).any (fun i => (matchFrameAt (buf.drop i)).isSome)

/-- The in-memory states of the bridge reachable from the zero-valued
initial state by any interleaving of reply applications (`UpdateState`,
driven by the ingestion loop) and dispatcher handler calls (driven by POST
/status requests), each of which runs under the state lock. -/
inductive Reachable : AmplifierState → Prop where
  | init : Reachable initialState
  | update (s : AmplifierState) (r : Reply) :
      Reachable s → Reachable (UpdateState s r)
  | power (s : AmplifierState) (str : String) :
      Reachable s → Reachable (handlePower s str).1
  | mute (s : AmplifierState) (str : String) :
      Reachable s → Reachable (handleMute s str).1
  | source (s : AmplifierState) (str : String) :
      Reachable s → Reachable (handleSource s str).1

/-- Embedding of `(*Amplifier).HTTPSource` (the POST /source handler of the
variant source file) after a successful JSON decode of a body with Source
field `src`: the switch maps the 11 known names to their SetSource command;
the default branch writes a 400 "Unknown source" response but does not
return, leaving c at the Go zero value Command{}; `SendCommand(c)` then runs
unconditionally.  Returns (HTTP error bodies written, commands transmitted). -/
def HTTPSource (src : String) : List String × List Command :=
  let branch : List String × Command :=
    match src with
    | "A1" => ([], SetSourceA1)
    | "A2" => ([], SetSourceA2)
    | "A3" => ([], SetSourceA3)
    | "A4" => ([], SetSourceA4)
    | "D1" => ([], SetSourceD1)
    | "D2" => ([], SetSourceD2)
    | "D3" => ([], SetSourceD3)
    | "MP3" => ([], SetSourceMP3)
    | "Bluetooth" => ([], SetSourceBluetooth)
    | "USB" => ([], SetSourceUSBAudio)
    | "A1 Balanced" => ([], SetSourceA1Balanced)
    | _ => (["Unknown source: " ++ src], { Group := "", Number := "", Data := "" })
  (branch.1, [branch.2])

theorem takeWhile_no_cr {d : List Char} (rest : List Char)
    (hd : d.all (fun c => c != '\r') = true) :
    (d ++ '\r' :: rest).takeWhile (fun c => c != '\r') = d := by
  induction d with
  | nil => simp [List.takeWhile]
  | cons a d ih =>
    simp only [List.all_cons, Bool.and_eq_true] at hd
    simp [List.cons_append, List.takeWhile_cons, hd.1, ih hd.2]

theorem dropWhile_no_cr {d : List Char} (rest : List Char)
    (hd : d.all (fun c => c != '\r') = true) :
    (d ++ '\r' :: rest).dropWhile (fun c => c != '\r') = '\r' :: rest := by
  induction d with
  | nil => simp [List.dropWhile]
  | cons a d ih =>
    simp only [List.all_cons, Bool.and_eq_true] at hd
    simp [List.cons_append, List.dropWhile_cons, hd.1, ih hd.2]

theorem matchFrameAt_data (g1 g2 n1 n2 : Char) (d rest : List Char)
    (hdig : (g1.isDigit && g2.isDigit && n1.isDigit && n2.isDigit) = true)
    (hd : d.all (fun c => c != '\r') = true) :
    matchFrameAt ('#' :: g1 :: g2 :: ',' :: n1 :: n2 :: ',' :: (d ++ '\r' :: rest)) =
      some ({ Group := ⟨[g1, g2]⟩, Number := ⟨[n1, n2]⟩, Data := ⟨d⟩ }, rest) := by
  simp only [matchFrameAt]
  rw [if_pos hdig]
  simp only [dropWhile_no_cr rest hd, takeWhile_no_cr rest hd]

theorem matchFrameAt_nodata (g1 g2 n1 n2 : Char) (rest : List Char)
    (hdig : (g1.isDigit && g2.isDigit && n1.isDigit && n2.isDigit) = true) :
    matchFrameAt ('#' :: g1 :: g2 :: ',' :: n1 :: n2 :: '\r' :: rest) =
      some ({ Group := ⟨[g1, g2]⟩, Number := ⟨[n1, n2]⟩, Data := "" }, rest) := by
  simp only [matchFrameAt]
  rw [if_pos hdig]

/-- A wire frame of the grammar `#GG,NN[,DATA]\r` (section 4.1 of the spec),
given by its digit characters and its optional data field.  `dat = none` is
the frame without the data part; `dat = some d` is the frame with data `d`
(possibly empty). -/
structure Frame where
  g1 : Char
  g2 : Char
  n1 : Char
  n2 : Char
  dat : Option (List Char)
deriving DecidableEq, Repr

/-- Well-formedness of a frame: the four code characters are ASCII digits
and the data, when present, contains no carriage return. -/
def Frame.valid (f : Frame) : Bool :=
  f.g1.isDigit && f.g2.isDigit && f.n1.isDigit && f.n2.isDigit &&
    (match f.dat with
     | none => true
     | some d => d.all (fun c => c != '\r'))

/-- The characters of a frame on the wire. -/
def Frame.chars (f : Frame) : List Char :=
  '#' :: f.g1 :: f.g2 :: ',' :: f.n1 :: f.n2 ::
    (match f.dat with
     | none => ['\r']
     | some d => ',' :: d ++ ['\r'])

/-- The Reply the decoder produces for a frame (an absent data part decodes
to the empty string, as an unmatched Go regex group does). -/
def Frame.reply (f : Frame) : Reply :=
  { Group := ⟨[f.g1, f.g2]⟩, Number := ⟨[f.n1, f.n2]⟩,
    Data := match f.dat with | none => "" | some d => ⟨d⟩ }

theorem matchFrameAt_frame (f : Frame) (rest : List Char) (hf : f.valid = true) :
    matchFrameAt (f.chars ++ rest) = some (f.reply, rest) := by
  unfold Frame.valid at hf
  match f with
  | ⟨g1, g2, n1, n2, none⟩ =>
    simp only [Bool.and_eq_true] at hf
    show matchFrameAt ('#' :: g1 :: g2 :: ',' :: n1 :: n2 :: ('\r' :: rest)) = _
    rw [matchFrameAt_nodata g1 g2 n1 n2 rest (by simp [hf.1])]
    rfl
  | ⟨g1, g2, n1, n2, some d⟩ =>
    simp only [Bool.and_eq_true] at hf
    have hchars : (Frame.mk g1 g2 n1 n2 (some d)).chars ++ rest =
        '#' :: g1 :: g2 :: ',' :: n1 :: n2 :: ',' :: (d ++ '\r' :: rest) := by
      simp [Frame.chars]
    rw [hchars, matchFrameAt_data g1 g2 n1 n2 d rest (by simp [hf.1]) hf.2]
    rfl

theorem decode_frame_append (f : Frame) (rest : List Char) (hf : f.valid = true) :
    decode (f.chars ++ rest) = f.reply :: decode rest := by
  have h := matchFrameAt_frame f rest hf
  match f with
  | ⟨g1, g2, n1, n2, none⟩ => exact decode_cons_some h
  | ⟨g1, g2, n1, n2, some d⟩ => exact decode_cons_some h

/-- A two-character string of ASCII digits (the GG and NN codes of the frame
grammar). -/
def twoDigitCode (str2 : String) : Bool :=
  match str2.data with
  | [a, b] => a.isDigit && b.isDigit
  | _ => false

theorem twoDigitCode_eq {str2 : String} (h : twoDigitCode str2 = true) :
    ∃ a b, str2 = ⟨[a, b]⟩ ∧ a.isDigit = true ∧ b.isDigit = true := by
  obtain ⟨l⟩ := str2
  match l with
  | [a, b] =>
    simp only [twoDigitCode, Bool.and_eq_true] at h
    exact ⟨a, b, rfl, h.1, h.2⟩
  | [] => simp [twoDigitCode] at h
  | [a] => simp [twoDigitCode] at h
  | a :: b :: c :: t => simp [twoDigitCode] at h

theorem decode_eq_nil_of_no_match (buf : List Char)
    (h : ∀ i, matchFrameAt (buf.drop i) = none) : decode buf = [] := by
  induction buf with
  | nil => exact decode_nil
  | cons c cs ih =>
    rw [decode_cons_none (h 0)]
    exact ih (fun i => h (i + 1))

theorem no_match_of_hasFrameMatch_false {buf : List Char}
    (h : hasFrameMatch buf = false) : ∀ i, matchFrameAt (buf.drop i) = none := by
  intro i
  by_cases hi : i < buf.length + 1
  · unfold hasFrameMatch at h
    simp only [List.any_eq_false] at h
    have h2 := h i (List.mem_range.mpr hi)
    cases hmm : matchFrameAt (buf.drop i) with
    | none => rfl
    | some v => rw [hmm] at h2; simp at h2
  · have hlen : buf.length ≤ i := by omega
    rw [List.drop_eq_nil_of_le hlen]
    rfl

/-!
The claims.
-/

/-- Claim C1, counterexample: the state with powered=false and muted=true IS
reachable from the all-zero initial state, by applying the single mute-on
reply (02,03,"1"): UpdateState's (02,03) branch sets Mute from the data
without consulting Power, so the claimed cross-field invariant does not hold
of all reachable states. -/
theorem C1_counterexample :
    Reachable { Power := false, Mute := true, Source := "" } := by
  have h := Reachable.update initialState
    { Group := "02", Number := "03", Data := "1" } Reachable.init
  have e : UpdateState initialState { Group := "02", Number := "03", Data := "1" } =
      { Power := false, Mute := true, Source := "" } := by decide
  rw [e] at h
  exact h

/-- Claim C1, amended: the derived reset holds atomically at every (02,01)
power-reply application — immediately after UpdateState processes a (02,01)
reply, powered=false implies muted=false and source="" — but it is not an
invariant of all reachable states, since a (02,03) mute reply (and a
dispatcher power-off, which resets nothing) can later make muted=true while
powered=false. -/
theorem C1_power_off_reply_resets (s : AmplifierState) (data : String)
    (h : (UpdateState s { Group := "02", Number := "01", Data := data }).Power = false) :
    (UpdateState s { Group := "02", Number := "01", Data := data }).Mute = false ∧
    (UpdateState s { Group := "02", Number := "01", Data := data }).Source = "" := by
  simp only [UpdateState] at h ⊢
  cases hdata : data == "1" with
  | false => simp [hdata]
  | true => simp [hdata] at h

theorem C1_power_off_reply_resets_witness :
    (UpdateState { Power := true, Mute := true, Source := "A1" }
      { Group := "02", Number := "01", Data := "0" }).Power = false ∧
    ((UpdateState { Power := true, Mute := true, Source := "A1" }
      { Group := "02", Number := "01", Data := "0" }).Mute = false ∧
     (UpdateState { Power := true, Mute := true, Source := "A1" }
      { Group := "02", Number := "01", Data := "0" }).Source = "") :=
  ⟨by decide, C1_power_off_reply_resets { Power := true, Mute := true, Source := "A1" } "0" (by decide)⟩

/-- Claim C2: for every valid Command (two-digit group and number, data free
of carriage returns and commas), decoding the frame SendCommand formats for
it yields exactly one Reply with the same group, number and data, the data
being the empty string when the command's data was empty. -/
theorem C2_encode_decode_roundtrip (cmd : Command)
    (hg : twoDigitCode cmd.Group = true) (hn : twoDigitCode cmd.Number = true)
    (hd : cmd.Data.data.all (fun c => c != '\r' && c != ',') = true) :
    decode (sendCommandFrame cmd) =
      [{ Group := cmd.Group, Number := cmd.Number, Data := cmd.Data }] := by
  obtain ⟨G, N, D⟩ := cmd
  obtain ⟨g1, g2, rfl, hg1, hg2⟩ := twoDigitCode_eq hg
  obtain ⟨n1, n2, rfl, hn1, hn2⟩ := twoDigitCode_eq hn
  obtain ⟨dl⟩ := D
  simp only at hd
  match dl with
  | [] =>
    have hm := matchFrameAt_nodata g1 g2 n1 n2 [] (by simp [hg1, hg2, hn1, hn2])
    have hframe : sendCommandFrame ⟨⟨[g1, g2]⟩, ⟨[n1, n2]⟩, ⟨[]⟩⟩ =
        '#' :: g1 :: g2 :: ',' :: n1 :: n2 :: '\r' :: [] := by
      simp [sendCommandFrame]
    rw [hframe, decode_cons_some hm, decode_nil]
  | c :: cs =>
    have hnocr : (c :: cs).all (fun ch => ch != '\r') = true := by
      simp only [List.all_eq_true, Bool.and_eq_true] at hd ⊢
      intro ch hch
      exact (hd ch hch).1
    have hvalid : (Frame.mk g1 g2 n1 n2 (some (c :: cs))).valid = true := by
      simp [Frame.valid, hg1, hg2, hn1, hn2, hnocr]
    have hframe : sendCommandFrame ⟨⟨[g1, g2]⟩, ⟨[n1, n2]⟩, ⟨c :: cs⟩⟩ =
        (Frame.mk g1 g2 n1 n2 (some (c :: cs))).chars ++ [] := by
      simp [sendCommandFrame, Frame.chars, String.ext_iff]
    rw [hframe, decode_frame_append _ _ hvalid, decode_nil]
    rfl

theorem C2_encode_decode_roundtrip_witness :
    (twoDigitCode SetSourceBluetooth.Group = true ∧
     twoDigitCode SetSourceBluetooth.Number = true ∧
     SetSourceBluetooth.Data.data.all (fun c => c != '\r' && c != ',') = true) ∧
    decode (sendCommandFrame SetSourceBluetooth) =
      [{ Group := SetSourceBluetooth.Group, Number := SetSourceBluetooth.Number,
         Data := SetSourceBluetooth.Data }] :=
  ⟨⟨by decide, by decide, by decide⟩,
   C2_encode_decode_roundtrip SetSourceBluetooth (by decide) (by decide) (by decide)⟩

/-- Claim C3: decoding the concatenation of any list of valid frames yields
exactly one Reply per frame, in the original left-to-right order (the
decoder's matches are non-overlapping and order-preserving). -/
theorem C3_decode_concat (fs : List Frame) (h : ∀ f ∈ fs, f.valid = true) :
    decode (fs.map Frame.chars).flatten = fs.map Frame.reply := by
  induction fs with
  | nil => exact decode_nil
  | cons f fs ih =>
    simp only [List.map_cons, List.flatten_cons]
    rw [decode_frame_append f _ (h f (by simp))]
    rw [ih (fun g hg => h g (by simp [hg]))]

theorem C3_decode_concat_witness :
    (∀ f ∈ ([⟨'0', '2', '0', '1', some ['1']⟩,
             ⟨'0', '4', '0', '1', none⟩,
             ⟨'1', '4', '0', '1', some ['2', '.', '0']⟩] : List Frame), f.valid = true) ∧
    decode (([⟨'0', '2', '0', '1', some ['1']⟩,
              ⟨'0', '4', '0', '1', none⟩,
              ⟨'1', '4', '0', '1', some ['2', '.', '0']⟩] : List Frame).map Frame.chars).flatten =
      ([⟨'0', '2', '0', '1', some ['1']⟩,
        ⟨'0', '4', '0', '1', none⟩,
        ⟨'1', '4', '0', '1', some ['2', '.', '0']⟩] : List Frame).map Frame.reply :=
  ⟨by decide, C3_decode_concat _ (by decide)⟩

/-- Claim C4: applying the power-off reply (02,01,"0") to any prior state
yields, in one atomic update, powered=false, muted=false and source="". -/
theorem C4_power_off_always_resets (s : AmplifierState) :
    UpdateState s { Group := "02", Number := "01", Data := "0" } =
      { Power := false, Mute := false, Source := "" } := rfl

/-- Claim C5: a non-empty buffer in which no position matches the frame
grammar decodes to zero replies, readUpdate reports the malformed-frame
error (leaving the state untouched), and one Listen iteration carries the
unchanged state forward instead of terminating. -/
theorem C5_malformed_buffer (s : AmplifierState) (buf : List Char)
    (hne : buf ≠ []) (h : hasFrameMatch buf = false) :
    decode buf = [] ∧
    readUpdate s buf = .error ("invalid reply format: " ++ ⟨buf⟩) ∧
    listenStep s buf = s := by
  have hdec := decode_eq_nil_of_no_match buf (no_match_of_hasFrameMatch_false h)
  refine ⟨hdec, ?_, ?_⟩
  · unfold readUpdate
    rw [hdec]
  · unfold listenStep readUpdate
    rw [hdec]

theorem C5_malformed_buffer_witness :
    ((['h', 'i'] : List Char) ≠ [] ∧ hasFrameMatch ['h', 'i'] = false) ∧
    (decode ['h', 'i'] = [] ∧
     readUpdate initialState ['h', 'i'] = .error ("invalid reply format: " ++ ⟨['h', 'i']⟩) ∧
     listenStep initialState ['h', 'i'] = initialState) :=
  ⟨⟨by decide, by decide⟩, C5_malformed_buffer initialState ['h', 'i'] (by decide) (by decide)⟩

/-- Claim C6, code evaluation at the failing input: for reply (04,01,"14")
the code renders "Current source: 14" — the raw data — even though the
Source mapping resolves "14" to "Bluetooth"; the resolved value is computed
into a local that is never used, so the claimed rendering "Current source:
Bluetooth" never appears. -/
theorem C6_source_reply_prints_raw_data :
    replyString { Group := "04", Number := "01", Data := "14" } = "Current source: 14" ∧
    sources "14" = "Bluetooth" := by decide

/-- Claim C7: dispatching the power intent "toggle" twice starting from any
state with powered=false sends SetPowerOn first and SetPowerStandby second,
each dispatch sending the complement of the powered value it observed. -/
theorem C7_toggle_twice (s : AmplifierState) (h : s.Power = false) :
    (handlePower s "toggle").2 = .ok (some SetPowerOn) ∧
    (handlePower (handlePower s "toggle").1 "toggle").2 = .ok (some SetPowerStandby) := by
  simp [handlePower, h]

theorem C7_toggle_twice_witness :
    initialState.Power = false ∧
    ((handlePower initialState "toggle").2 = .ok (some SetPowerOn) ∧
     (handlePower (handlePower initialState "toggle").1 "toggle").2 = .ok (some SetPowerStandby)) :=
  ⟨rfl, C7_toggle_twice initialState rfl⟩

/-- Claim C8, counterexample: at the all-zero state (Power=false) a POST
/status body decoding to Source="A9" produces NO source-field error — the
error list is empty — because handleSource returns nil immediately while
Power is false; so the claim fails for that concrete request/state. -/
theorem C8_counterexample :
    servePost initialState { Power := "", Mute := "", Source := "A9" } =
      (initialState, [], []) := by decide

/-- Claim C8, amended: provided the stored Power state is true when the
request is processed, a POST /status body decoding to Source="A9" (Power
and Mute empty) yields exactly the source-field error "Unknown source: A9",
sends no command, leaves the whole state (power and mute included)
unchanged, and the response body still encodes that unchanged state; when
Power is false the handlers silently no-op and no error is reported. -/
theorem C8_source_error_when_powered (s : AmplifierState) (h : s.Power = true) :
    servePost s { Power := "", Mute := "", Source := "A9" } =
      (s, ["Unknown source: A9"], []) := by
  obtain ⟨p, m, src⟩ := s
  simp only at h
  subst h
  rfl

theorem C8_source_error_when_powered_witness :
    ({ Power := true, Mute := true, Source := "A1" } : AmplifierState).Power = true ∧
    servePost { Power := true, Mute := true, Source := "A1" }
        { Power := "", Mute := "", Source := "A9" } =
      ({ Power := true, Mute := true, Source := "A1" }, ["Unknown source: A9"], []) :=
  ⟨rfl, C8_source_error_when_powered { Power := true, Mute := true, Source := "A1" } rfl⟩

/-- Claim C9, code evaluation at the failing input: for the unknown source
"A9" the POST /source handler writes the 400 "Unknown source" response but,
lacking a return, still transmits one command frame — the zero-value
Command, whose wire frame is the three bytes hash-comma-CR. -/
theorem C9_unknown_source_still_sends :
    HTTPSource "A9" = (["Unknown source: A9"], [{ Group := "", Number := "", Data := "" }]) ∧
    sendCommandFrame { Group := "", Number := "", Data := "" } = ['#', ',', '\r'] := by
  decide

/-- Claim C10: while the stored Power is false, handleMute and handleSource
return nil for every input string — valid or not — sending no command,
reporting no error, and leaving the state unchanged; their InvalidArgument
errors can therefore only arise while Power is true. -/
theorem C10_power_gate (s : AmplifierState) (str : String) (h : s.Power = false) :
    handleMute s str = (s, .ok none) ∧ handleSource s str = (s, .ok none) := by
  simp [handleMute, handleSource, h]

theorem C10_power_gate_witness :
    initialState.Power = false ∧
    (handleMute initialState "A9" = (initialState, .ok none) ∧
     handleSource initialState "A9" = (initialState, .ok none)) :=
  ⟨rfl, C10_power_gate initialState "A9" rfl⟩

end CXA81
